import Mathlib

/-!
Verification of the drata-kong-tests evidence pipeline.

This file shallowly embeds the Python sources (src/tests/base.py,
src/tests/runtime.py, src/tests/configuration.py, src/clients/kong.py,
src/clients/drata.py, src/main.py) as executable Lean definitions and
proves or refutes the frozen claims about them.

Modelling conventions:
- JSON-ish dynamic values (response bodies, details dictionaries,
  artifact payloads) are embedded as the inductive `JVal`; Python dicts
  become association lists (keys unique in practice; lookup takes the
  first match, as dict lookup would).
- Code that may raise returns `Except String _`; the string is the
  Python exception message `str(e)`.
- External collaborator behaviour (HTTP responses of the gateway) is an
  explicit oracle argument: each request's outcome is either a parsed
  response or a raised transport failure.
- Wall-clock time is abstracted by a non-negative elapsed duration in
  milliseconds supplied to `BaseTest.run`; `time.time()` is assumed
  monotone across one check.
-/

namespace DrataKong

/-- JSON-like dynamic values (Python objects flowing through the pipeline). -/
inductive JVal where
  | null : JVal
  | bool : Bool → JVal
  | num : Int → JVal
  | str : String → JVal
  | arr : List JVal → JVal
  | obj : List (String × JVal) → JVal

/-- A Python dict, embedded as an association list from string keys. -/
abbrev Dict := List (String × JVal)

/-- Python `d.get(k, default)` on an association list (first match wins). -/
def dictGetD (fields : Dict) (k : String) (default : JVal) : JVal :=
  match fields.find? (fun p => p.1 == k) with
  | some p => p.2
  | none => default

/-- Python `v.get(k, default)`: succeeds on dicts, raises AttributeError
on any non-dict value (list, string, number, None). -/
def pyDictGet (v : JVal) (k : String) (default : JVal) : Except String JVal :=
  match v with
  | JVal.obj fields => Except.ok (dictGetD fields k default)
  | _ => Except.error "AttributeError: object has no attribute get"

/-- Python `v == s` for a string `s`: true only when `v` is that string. -/
def jvalEqStr (v : JVal) (s : String) : Bool :=
  match v with
  | JVal.str t => t == s
  | _ => false

/-- Python truthiness of an `Optional[str]`: `None` and `""` are falsy. -/
def pyTruthyStr (o : Option String) : Bool :=
  match o with
  | none => false
  | some s => !(s == "")

/-- Optional string to JSON value (None becomes null). -/
def optStrToJVal (o : Option String) : JVal :=
  match o with
  | none => JVal.null
  | some s => JVal.str s

/-- src/tests/base.py TestResult: test result status. -/
inductive TestResult where
  | PASS : TestResult
  | FAIL : TestResult
  | ERROR : TestResult
  | SKIP : TestResult
deriving DecidableEq

/-- The `.value` string of a TestResult, stored in Evidence.result. -/
def TestResult.value : TestResult → String
  | TestResult.PASS => "PASS"
  | TestResult.FAIL => "FAIL"
  | TestResult.ERROR => "ERROR"
  | TestResult.SKIP => "SKIP"

/-- src/tests/base.py EvidenceArtifact: one captured piece of evidence. -/
structure EvidenceArtifact where
  type : String
  description : String
  data : JVal

/-- dataclasses.asdict on an EvidenceArtifact. -/
def EvidenceArtifact.asdict (a : EvidenceArtifact) : Dict :=
  [("type", JVal.str a.type),
   ("description", JVal.str a.description),
   ("data", a.data)]

/-- src/tests/base.py Evidence: the standardized evidence record. -/
structure Evidence where
  test_id : String
  test_name : String
  timestamp : String
  result : String
  control_mapping : List String
  duration_ms : Int
  details : Dict
  artifacts : List Dict
  error_message : Option String

/-- The identifying metadata of one BaseTest subclass
(test_id / test_name / control_mapping properties). -/
structure CheckMeta where
  test_id : String
  test_name : String
  control_mapping : List String

/-- The behaviour of one invocation of `execute`: either its returned
triple, or the message of the exception it raised. -/
abbrev ExecOutcome := Except String (TestResult × Dict × List EvidenceArtifact)

/-- src/tests/base.py BaseTest.run: wraps one `execute` behaviour into
Evidence. `elapsed_ms` is the measured wall-clock duration; the function
is total, so a raised failure never propagates past `run`. -/
def BaseTest.run (meta : CheckMeta) (timestamp : String) (elapsed_ms : Nat)
    (outcome : ExecOutcome) : Evidence :=
  match outcome with
  | Except.ok (result, details, artifacts) =>
      { test_id := meta.test_id
        test_name := meta.test_name
        timestamp := timestamp
        result := result.value
        control_mapping := meta.control_mapping
        duration_ms := (elapsed_ms : Int)
        details := details
        artifacts := artifacts.map EvidenceArtifact.asdict
        error_message := none }
  | Except.error e =>
      { test_id := meta.test_id
        test_name := meta.test_name
        timestamp := timestamp
        result := TestResult.ERROR.value
        control_mapping := meta.control_mapping
        duration_ms := (elapsed_ms : Int)
        details := []
        artifacts := []
        error_message := some e }

/-! ### Dataplane client (src/clients/kong.py, DataplaneClient) -/

/-- A parsed dataplane HTTP response: its status code, and its body as
JSON when `response.json()` succeeds (`none`: body not parseable). -/
structure DPResponse where
  status_code : Nat
  json : Option JVal

/-- The behaviour of one dataplane request: a response, or the message of
the raised transport failure (timeout, connection error). -/
abbrev DPResult := Except String DPResponse

/-- DataplaneClient.health_check: GET /api/health; a raised transport
failure is caught and becomes `(False, 0, dict with error message)`; an
unparseable body becomes the empty dict. -/
def DataplaneClient.health_check (r : DPResult) : Bool × Nat × JVal :=
  match r with
  | Except.ok resp =>
      (resp.status_code == 200, resp.status_code, resp.json.getD (JVal.obj []))
  | Except.error e => (false, 0, JVal.obj [("error", JVal.str e)])

/-- DataplaneClient.get_whoami: GET /api/whoami; a raised transport
failure is caught and becomes `(0, dict with error message)`. -/
def DataplaneClient.get_whoami (r : DPResult) : Nat × JVal :=
  match r with
  | Except.ok resp => (resp.status_code, resp.json.getD (JVal.obj []))
  | Except.error e => (0, JVal.obj [("error", JVal.str e)])

/-- DataplaneClient.test_rate_limit: one status code per request; a
request whose GET raised appends status 0 instead of propagating. -/
def DataplaneClient.test_rate_limit (attempts : List (Except String Nat)) : List Nat :=
  attempts.map (fun a =>
    match a with
    | Except.ok status => status
    | Except.error _ => 0)

/-! ### Runtime checks (src/tests/runtime.py) -/

/-- RT001_RateLimitFreeTier's identifying metadata. -/
def RT001_meta : CheckMeta :=
  { test_id := "RT-001"
    test_name := "Rate limiting enforces free tier (5 req/min)"
    control_mapping := ["CC6.1", "CC6.3", "CC7.2"] }

/-- RT001_RateLimitFreeTier.execute: 8 requests with the free key;
pass iff some 429 was seen and at most 5 requests got 200. The oracle
`attempts` gives the behaviour of each of the 8 burst requests. -/
def RT001_execute (api_key : String) (attempts : List (Except String Nat)) :
    TestResult × Dict × List EvidenceArtifact :=
  let results := DataplaneClient.test_rate_limit attempts
  let success_count := (results.filter (fun r => r == 200)).length
  let rate_limited_count := (results.filter (fun r => r == 429)).length
  let passed := decide (0 < rate_limited_count) && decide (success_count ≤ 5)
  let details : Dict :=
    [("api_key", JVal.str api_key),
     ("tier", JVal.str "free_trial"),
     ("expected_limit", JVal.num 5),
     ("requests_sent", JVal.num 8),
     ("success_count", JVal.num (success_count : Int)),
     ("rate_limited_count", JVal.num (rate_limited_count : Int)),
     ("results", JVal.arr (results.enum.map (fun p =>
        JVal.obj [("request", JVal.num ((p.1 : Int) + 1)),
                  ("status", JVal.num (p.2 : Int))]))),
     ("rate_limit_triggered", JVal.bool (decide (0 < rate_limited_count)))]
  let artifacts :=
    [{ type := "test_results"
       description := "HTTP status codes for rate limit test"
       data := JVal.arr (results.map (fun r => JVal.num (r : Int))) }]
  (if passed then TestResult.PASS else TestResult.FAIL, details, artifacts)

/-- RT005_ValidKeyAccepted's identifying metadata. -/
def RT005_meta : CheckMeta :=
  { test_id := "RT-005"
    test_name := "Valid API key accepted (200)"
    control_mapping := ["CC6.1"] }

/-- RT005_ValidKeyAccepted.execute: health check with a valid key;
pass iff the observed status is 200. Never raises: health_check already
caught any transport failure and reported status 0. -/
def RT005_execute (api_key : String) (r : DPResult) :
    TestResult × Dict × List EvidenceArtifact :=
  let hc := DataplaneClient.health_check r
  let status_code := hc.2.1
  let response_data := hc.2.2
  let passed := status_code == 200
  let details : Dict :=
    [("api_key_used", JVal.str api_key),
     ("expected_status", JVal.num 200),
     ("actual_status", JVal.num (status_code : Int)),
     ("accepted", JVal.bool passed),
     ("health_response", response_data)]
  let artifacts :=
    [{ type := "http_response"
       description := "Health check response with valid key"
       data := response_data }]
  (if passed then TestResult.PASS else TestResult.FAIL, details, artifacts)

/-- RT006_ConsumerIdentityInjected's identifying metadata. -/
def RT006_meta : CheckMeta :=
  { test_id := "RT-006"
    test_name := "Consumer identity injected correctly"
    control_mapping := ["CC6.1", "CC6.3"] }

/-- The body traversal of RT006: `body.get("consumer", dict()).get("custom_id", "")`.
Raises when an intermediate value is not a dict. -/
def extractCustomId (body : JVal) : Except String JVal :=
  match pyDictGet body "consumer" (JVal.obj []) with
  | Except.error e => Except.error e
  | Except.ok consumer_info => pyDictGet consumer_info "custom_id" (JVal.str "")

/-- RT006_ConsumerIdentityInjected.execute: whoami with a valid key;
pass iff status is 200 and the body's consumer.custom_id equals the
configured expected value exactly. A `.get` on a non-dict raises and the
exception escapes execute. -/
def RT006_execute (api_key expected_custom_id : String) (r : DPResult) : ExecOutcome :=
  let whoami := DataplaneClient.get_whoami r
  let status_code := whoami.1
  let response_data := whoami.2
  match pyDictGet response_data "consumer" (JVal.obj []) with
  | Except.error e => Except.error e
  | Except.ok consumer_info =>
    match pyDictGet consumer_info "custom_id" (JVal.str "") with
    | Except.error e => Except.error e
    | Except.ok actual_custom_id =>
      let passed := (status_code == 200) && jvalEqStr actual_custom_id expected_custom_id
      let details : Dict :=
        [("api_key_used", JVal.str api_key),
         ("expected_custom_id", JVal.str expected_custom_id),
         ("actual_custom_id", actual_custom_id),
         ("consumer_info", consumer_info),
         ("identity_correct", JVal.bool passed)]
      let artifacts :=
        [{ type := "http_response"
           description := "Whoami response showing consumer identity"
           data := response_data }]
      Except.ok (if passed then TestResult.PASS else TestResult.FAIL, details, artifacts)

/-! ### Konnect admin client (src/clients/kong.py, KonnectClient) -/

/-- src/clients/kong.py KongConsumer. -/
structure KongConsumer where
  id : String
  username : String
  custom_id : Option String
  created_at : Int
deriving DecidableEq

/-- src/clients/kong.py KongPlugin. -/
structure KongPlugin where
  id : String
  name : String
  enabled : Bool
  config : Dict
  consumer_id : Option String := none
  service_id : Option String := none
  route_id : Option String := none

/-- One raw plugin item of the admin API's JSON listing. `id` and `name`
are required (subscripted in the source); `enabled`, `config` and the
nested `consumer`/`service`/`route` objects may be absent (`none`).
Nested objects are association lists; entity ids are modelled as strings. -/
structure RawPlugin where
  id : String
  name : String
  enabled : Option Bool := none
  config : Option Dict := none
  consumer : Option Dict := none
  service : Option Dict := none
  route : Option Dict := none

/-- Python `item.get("consumer", dict()).get("id") if item.get("consumer") else None`:
an absent or empty nested object is falsy and yields None; otherwise the
nested object's "id" value when it is a string. -/
def refId (o : Option Dict) : Option String :=
  match o with
  | none => none
  | some fields =>
    if fields.isEmpty then none
    else
      match dictGetD fields "id" JVal.null with
      | JVal.str s => some s
      | _ => none

/-- The name filter of get_plugins: skip an item iff the filter string is
truthy and differs from the item's name. -/
def keepPlugin (plugin_name : Option String) (item : RawPlugin) : Bool :=
  !(pyTruthyStr plugin_name && !(item.name == match plugin_name with
                                              | some n => n
                                              | none => ""))

/-- KonnectClient.get_plugins over an already-fetched listing: filter by
name, then build KongPlugin records; a missing `enabled` field defaults
to `true`. -/
def KonnectClient.get_plugins (items : List RawPlugin) (plugin_name : Option String) :
    List KongPlugin :=
  (items.filter (keepPlugin plugin_name)).map (fun item =>
    { id := item.id
      name := item.name
      enabled := item.enabled.getD true
      config := item.config.getD []
      consumer_id := refId item.consumer
      service_id := refId item.service
      route_id := refId item.route })

/-! ### Configuration checks (src/tests/configuration.py) -/

/-- CF001_AuthPluginEnabled's identifying metadata. -/
def CF001_meta : CheckMeta :=
  { test_id := "CF-001"
    test_name := "Key authentication plugin enabled"
    control_mapping := ["CC6.1", "CC8.1"] }

/-- CF001_AuthPluginEnabled.execute over a fetched plugin listing:
pass iff at least one key-auth plugin is enabled. -/
def CF001_execute (items : List RawPlugin) : TestResult × Dict × List EvidenceArtifact :=
  let plugins := KonnectClient.get_plugins items (some "key-auth")
  let enabled_plugins := plugins.filter (fun p => p.enabled)
  let passed := decide (0 < enabled_plugins.length)
  let plugin_configs := plugins.map (fun p =>
    JVal.obj [("id", JVal.str p.id),
              ("enabled", JVal.bool p.enabled),
              ("service_id", optStrToJVal p.service_id),
              ("route_id", optStrToJVal p.route_id)])
  let details : Dict :=
    [("plugin_name", JVal.str "key-auth"),
     ("total_found", JVal.num (plugins.length : Int)),
     ("enabled_count", JVal.num (enabled_plugins.length : Int)),
     ("plugin_configs", JVal.arr plugin_configs),
     ("auth_enforced", JVal.bool passed)]
  let artifacts :=
    [{ type := "config_snapshot"
       description := "Key-auth plugin configuration"
       data := JVal.arr plugin_configs }]
  (if passed then TestResult.PASS else TestResult.FAIL, details, artifacts)

/-- CF002_RateLimitPluginEnabled's identifying metadata. -/
def CF002_meta : CheckMeta :=
  { test_id := "CF-002"
    test_name := "Rate limiting plugin enabled per consumer"
    control_mapping := ["CC6.1", "CC6.3", "CC8.1"] }

/-- CF002_RateLimitPluginEnabled.execute over a fetched plugin listing:
pass iff at least one rate-limiting plugin is enabled with a truthy
consumer association. -/
def CF002_execute (items : List RawPlugin) : TestResult × Dict × List EvidenceArtifact :=
  let plugins := KonnectClient.get_plugins items (some "rate-limiting")
  let consumer_plugins := plugins.filter (fun p => pyTruthyStr p.consumer_id && p.enabled)
  let passed := decide (0 < consumer_plugins.length)
  let plugin_configs := plugins.map (fun p =>
    JVal.obj [("id", JVal.str p.id),
              ("enabled", JVal.bool p.enabled),
              ("consumer_id", optStrToJVal p.consumer_id),
              ("config", JVal.obj
                [("minute", dictGetD p.config "minute" JVal.null),
                 ("hour", dictGetD p.config "hour" JVal.null),
                 ("policy", dictGetD p.config "policy" JVal.null)])])
  let details : Dict :=
    [("plugin_name", JVal.str "rate-limiting"),
     ("total_found", JVal.num (plugins.length : Int)),
     ("consumer_scoped_count", JVal.num (consumer_plugins.length : Int)),
     ("plugin_configs", JVal.arr plugin_configs),
     ("rate_limiting_configured", JVal.bool passed)]
  let artifacts :=
    [{ type := "config_snapshot"
       description := "Rate limiting plugin configuration"
       data := JVal.arr plugin_configs }]
  (if passed then TestResult.PASS else TestResult.FAIL, details, artifacts)

/-- CF003_AllConsumersHaveLimits's identifying metadata. -/
def CF003_meta : CheckMeta :=
  { test_id := "CF-003"
    test_name := "All consumers have rate limits configured"
    control_mapping := ["CC6.2", "CC6.3"] }

/-- The set comprehension of CF003: consumer ids carried by enabled,
consumer-scoped rate-limiting plugins (membership is what matters, so a
list stands in for the Python set). -/
def consumers_with_limits (rate_limit_plugins : List KongPlugin) : List String :=
  rate_limit_plugins.filterMap (fun p =>
    if pyTruthyStr p.consumer_id && p.enabled then p.consumer_id else none)

/-- The usernames collected by CF003's loop for consumers whose id is
not in the covered set. -/
def CF003_missing_limits (consumers : List KongConsumer) (covered : List String) :
    List String :=
  (consumers.filter (fun c => !(covered.contains c.id))).map (fun c => c.username)

/-- CF003_AllConsumersHaveLimits.execute over fetched consumers and
rate-limiting plugin items: pass iff no consumer lacks a rate limit and
the consumer list is non-empty. details.coverage_percent (a float) is
omitted from the model; no claim depends on it. -/
def CF003_execute (consumers : List KongConsumer) (items : List RawPlugin) :
    TestResult × Dict × List EvidenceArtifact :=
  let rate_limit_plugins := KonnectClient.get_plugins items (some "rate-limiting")
  let covered := consumers_with_limits rate_limit_plugins
  let consumer_coverage := consumers.map (fun c =>
    JVal.obj [("id", JVal.str c.id),
              ("username", JVal.str c.username),
              ("custom_id", optStrToJVal c.custom_id),
              ("has_rate_limit", JVal.bool (covered.contains c.id))])
  let missing_limits := CF003_missing_limits consumers covered
  let total_consumers := consumers.length
  let covered_consumers := (consumers.filter (fun c => covered.contains c.id)).length
  let passed := missing_limits.isEmpty && decide (0 < total_consumers)
  let details : Dict :=
    [("total_consumers", JVal.num (total_consumers : Int)),
     ("consumers_with_limits", JVal.num (covered_consumers : Int)),
     ("missing_limits", JVal.arr (missing_limits.map JVal.str)),
     ("consumer_coverage", JVal.arr consumer_coverage),
     ("full_coverage", JVal.bool passed)]
  let artifacts :=
    [{ type := "config_snapshot"
       description := "Consumer rate limit coverage"
       data := JVal.arr consumer_coverage }]
  (if passed then TestResult.PASS else TestResult.FAIL, details, artifacts)

/-! ### Evidence sink (src/clients/drata.py) -/

/-- src/clients/drata.py DrataEvidencePayload. -/
structure DrataEvidencePayload where
  test_id : String
  test_name : String
  result : String
  timestamp : String
  control_ids : List String
  details : Dict
  artifacts : List Dict

/-- DrataEvidencePayload.to_dict: the platform submission shape; result
PASS maps to status PASSING, everything else to FAILING. -/
def DrataEvidencePayload.to_dict (p : DrataEvidencePayload) : Dict :=
  [("externalId", JVal.str p.test_id),
   ("name", JVal.str p.test_name),
   ("status", JVal.str (if p.result == "PASS" then "PASSING" else "FAILING")),
   ("lastTestedAt", JVal.str p.timestamp),
   ("controlIds", JVal.arr (p.control_ids.map JVal.str)),
   ("evidence", JVal.obj
     [("details", JVal.obj p.details),
      ("artifacts", JVal.arr (p.artifacts.map JVal.obj))])]

/-- src/clients/drata.py DrataMockClient's mutable state: the in-memory
record of would-be submissions. -/
structure DrataMockClient where
  verbose : Bool
  submitted_evidence : List (String × Dict) := []

/-- DrataMockClient.submit_external_evidence: append the submission to
the in-memory list and return the mock response dict. Never raises. -/
def DrataMockClient.submit_external_evidence (st : DrataMockClient)
    (monitor_id : String) (evidence : DrataEvidencePayload) : DrataMockClient × Dict :=
  let payload := evidence.to_dict
  ({ st with submitted_evidence := st.submitted_evidence ++ [(monitor_id, payload)] },
   [("status", JVal.str "mock"),
    ("id", JVal.str ("mock-" ++ toString (st.submitted_evidence.length + 1)))])

/-! ### Orchestrator entry point (src/main.py) -/

/-- The payload built by push_to_drata for one Evidence record
(main.py lines 138-146). -/
def mkPayload (ev : Evidence) : DrataEvidencePayload :=
  { test_id := ev.test_id
    test_name := ev.test_name
    result := ev.result
    timestamp := ev.timestamp
    control_ids := ev.control_mapping
    details := ev.details
    artifacts := ev.artifacts }

/-- The submission target of push_to_drata: the check id, lower-cased,
behind the fixed "kong-" prefix (main.py line 151). -/
def monitorId (ev : Evidence) : String :=
  "kong-" ++ ev.test_id.toLower

/-- main.py push_to_drata restricted to the dry-run client: for each
Evidence record, when `dry_run` is true only a console line is printed
(no client call at all); otherwise the mock client's
submit_external_evidence runs. Console output is not modelled. -/
def push_to_drata (results : List Evidence) (client : DrataMockClient)
    (dry_run : Bool) : DrataMockClient :=
  results.foldl (fun st ev =>
    if dry_run then st
    else (st.submit_external_evidence (monitorId ev) (mkPayload ev)).1) client

/-- print_summary's passed count: results with result "PASS". -/
def summaryPassed (results : List Evidence) : Nat :=
  (results.filter (fun r => r.result == "PASS")).length

/-- print_summary's failed count: results with result "FAIL". -/
def summaryFailed (results : List Evidence) : Nat :=
  (results.filter (fun r => r.result == "FAIL")).length

/-- print_summary's errors count: results with result "ERROR". -/
def summaryErrors (results : List Evidence) : Nat :=
  (results.filter (fun r => r.result == "ERROR")).length

/-- The per-Outcome count for SKIP (print_summary prints only the other
three, but the partition property of the claim is about per-Outcome
counts over the results list). -/
def summarySkipped (results : List Evidence) : Nat :=
  (results.filter (fun r => r.result == "SKIP")).length

/-- main.py line 231: the count of results whose result is FAIL or ERROR. -/
def mainFailedCount (results : List Evidence) : Nat :=
  (results.filter (fun r => r.result == "FAIL" || r.result == "ERROR")).length

/-- main.py lines 232-237: exit code 1 when any check failed or errored,
otherwise 0. -/
def mainExitCode (results : List Evidence) : Nat :=
  if 0 < mainFailedCount results then 1 else 0

/-- A concrete run outcome multiset exercising all four Outcome values. -/
def sampleResults : List Evidence :=
  [BaseTest.run RT005_meta "t0" 1 (Except.ok (TestResult.PASS, [], [])),
   BaseTest.run RT001_meta "t1" 2 (Except.ok (TestResult.FAIL, [], [])),
   BaseTest.run RT006_meta "t2" 3 (Except.error "boom"),
   BaseTest.run CF001_meta "t3" 4 (Except.ok (TestResult.SKIP, [], []))]

/-- A concrete consumer covered by rateLimitItemC1. -/
def consumerAlice : KongConsumer :=
  { id := "c1", username := "alice", custom_id := some "tier_free", created_at := 1 }

/-- A concrete consumer not covered by any rate-limit plugin. -/
def consumerBob : KongConsumer :=
  { id := "c2", username := "bob", custom_id := none, created_at := 2 }

/-- A concrete enabled rate-limiting plugin item scoped to consumer c1. -/
def rateLimitItemC1 : RawPlugin :=
  { id := "p1", name := "rate-limiting", enabled := some true,
    consumer := some [("id", JVal.str "c1")] }

/-- A concrete key-auth plugin item whose listing omits the enabled field. -/
def keyAuthItemNoEnabled : RawPlugin :=
  { id := "p1", name := "key-auth" }

/-- A concrete consumer-scoped rate-limiting item omitting the enabled field. -/
def rateLimitItemNoEnabled : RawPlugin :=
  { id := "p2", name := "rate-limiting", consumer := some [("id", JVal.str "c1")] }

/-! ### Claim theorems -/

/-- run on a normal PASS-or-FAIL return: the Evidence result mirrors the
pass decision. -/
theorem run_pass_fail_result (meta : CheckMeta) (timestamp : String)
    (elapsed_ms : Nat) (b : Bool) (d : Dict) (a : List EvidenceArtifact) :
    (BaseTest.run meta timestamp elapsed_ms
      (Except.ok ((if b then TestResult.PASS else TestResult.FAIL), d, a))).result
      = (if b then "PASS" else "FAIL") := by
  cases b <;> rfl

/-- Python equality of a dynamic value with a string holds exactly for
that string value. -/
theorem jvalEqStr_iff (v : JVal) (s : String) :
    jvalEqStr v s = true ↔ v = JVal.str s := by
  cases v <;> simp [jvalEqStr]

/-- A burst in which no request raises reports exactly the observed
status codes. -/
theorem test_rate_limit_ok (statuses : List Nat) :
    DataplaneClient.test_rate_limit (statuses.map Except.ok) = statuses := by
  induction statuses with
  | nil => rfl
  | cons s rest ih =>
    simp only [DataplaneClient.test_rate_limit, List.map_cons] at ih ⊢
    rw [ih]

/-- The 429-filter is non-empty exactly when some request observed 429. -/
theorem filter_429_pos_iff (l : List Nat) :
    0 < (l.filter (fun r => r == 429)).length ↔ 429 ∈ l := by
  induction l with
  | nil => simp
  | cons a rest ih =>
    by_cases ha : a = 429
    · simp [List.filter_cons, ha]
    · simp [List.filter_cons, ha, ih]
      intro h
      exact absurd h.symm ha


/-- C1: for every check and every behaviour of its execute method, run()
returns exactly one Evidence record (run is a total function) whose
result is one of PASS, FAIL, ERROR, SKIP and whose duration_ms is a
non-negative integer; when execute raises, run returns Evidence with
result ERROR, empty details, empty artifacts, and error_message set to
the failure's description, and the failure never propagates past run. -/
theorem run_wraps_every_outcome (meta : CheckMeta) (timestamp : String)
    (elapsed_ms : Nat) (outcome : ExecOutcome) :
    ((BaseTest.run meta timestamp elapsed_ms outcome).result = "PASS" ∨
     (BaseTest.run meta timestamp elapsed_ms outcome).result = "FAIL" ∨
     (BaseTest.run meta timestamp elapsed_ms outcome).result = "ERROR" ∨
     (BaseTest.run meta timestamp elapsed_ms outcome).result = "SKIP") ∧
    0 ≤ (BaseTest.run meta timestamp elapsed_ms outcome).duration_ms ∧
    (∀ msg, outcome = Except.error msg →
      (BaseTest.run meta timestamp elapsed_ms outcome).result = "ERROR" ∧
      (BaseTest.run meta timestamp elapsed_ms outcome).details = [] ∧
      (BaseTest.run meta timestamp elapsed_ms outcome).artifacts = [] ∧
      (BaseTest.run meta timestamp elapsed_ms outcome).error_message = some msg) := by
  refine ⟨?_, ?_, ?_⟩
  · cases outcome with
    | ok triple =>
      obtain ⟨r, d, a⟩ := triple
      cases r <;> simp [BaseTest.run, TestResult.value]
    | error e => simp [BaseTest.run, TestResult.value]
  · cases outcome with
    | ok triple =>
      obtain ⟨r, d, a⟩ := triple
      simp [BaseTest.run]
    | error e => simp [BaseTest.run]
  · intro msg h
    subst h
    simp [BaseTest.run, TestResult.value]

/-- Witness for C1 at a concrete raised failure. -/
theorem run_wraps_every_outcome_witness :
    (BaseTest.run ⟨"RT-001", "n", []⟩ "ts" 5 (Except.error "boom")).result = "ERROR" ∧
    (BaseTest.run ⟨"RT-001", "n", []⟩ "ts" 5 (Except.error "boom")).details = [] ∧
    (BaseTest.run ⟨"RT-001", "n", []⟩ "ts" 5 (Except.error "boom")).artifacts = [] ∧
    (BaseTest.run ⟨"RT-001", "n", []⟩ "ts" 5 (Except.error "boom")).error_message = some "boom" :=
  (run_wraps_every_outcome ⟨"RT-001", "n", []⟩ "ts" 5 (Except.error "boom")).2.2 "boom" rfl

/-- C2 counterexample: an execute that returns ERROR normally produces
Evidence with result ERROR but error_message unset, refuting
"whenever result is ERROR (whether raised or returned normally by
execute), error_message is present". -/
theorem error_result_without_message :
    (BaseTest.run ⟨"XX-000", "normal error return", []⟩ "ts" 1
      (Except.ok (TestResult.ERROR, [], []))).result = "ERROR" ∧
    (BaseTest.run ⟨"XX-000", "normal error return", []⟩ "ts" 1
      (Except.ok (TestResult.ERROR, [], []))).error_message = none :=
  ⟨rfl, rfl⟩

/-- C2 amended: error_message is set iff execute raised; consequently,
for every check whose execute never returns ERROR on a normal return
(true of all nine checks in this repository, which only return PASS or
FAIL), error_message is set iff result is ERROR. -/
theorem error_message_iff_raised (meta : CheckMeta) (timestamp : String)
    (elapsed_ms : Nat) (outcome : ExecOutcome) :
    ((BaseTest.run meta timestamp elapsed_ms outcome).error_message.isSome ↔
      ∃ msg, outcome = Except.error msg) ∧
    ((∀ r d a, outcome = Except.ok (r, d, a) → r ≠ TestResult.ERROR) →
      ((BaseTest.run meta timestamp elapsed_ms outcome).error_message.isSome ↔
        (BaseTest.run meta timestamp elapsed_ms outcome).result = "ERROR")) := by
  cases outcome with
  | ok triple =>
    obtain ⟨r, d, a⟩ := triple
    constructor
    · simp [BaseTest.run]
    · intro hnoerr
      have hr : r ≠ TestResult.ERROR := hnoerr r d a rfl
      constructor
      · intro h
        simp [BaseTest.run] at h
      · intro h
        simp only [BaseTest.run] at h
        exact absurd h (by cases r <;> simp_all [TestResult.value])
  | error e =>
    constructor
    · simp [BaseTest.run]
    · intro _
      simp [BaseTest.run, TestResult.value]

/-- Witness for C2's amended theorem at a concrete normal PASS return. -/
theorem error_message_iff_raised_witness :
    (BaseTest.run ⟨"RT-003", "Invalid API key rejected (401)", ["CC6.1", "CC6.6"]⟩
      "ts" 2 (Except.ok (TestResult.PASS, [], []))).error_message.isSome ↔
    (BaseTest.run ⟨"RT-003", "Invalid API key rejected (401)", ["CC6.1", "CC6.6"]⟩
      "ts" 2 (Except.ok (TestResult.PASS, [], []))).result = "ERROR" :=
  (error_message_iff_raised ⟨"RT-003", "Invalid API key rejected (401)", ["CC6.1", "CC6.6"]⟩
    "ts" 2 (Except.ok (TestResult.PASS, [], []))).2
    (by
      intro r d a h
      injection h with h1
      injection h1 with h2 h3
      subst h2
      decide)

/-- C3 counterexample: a transport failure during the valid-key-accepted
check is caught inside DataplaneClient.health_check (status 0), so the
resulting Evidence has result FAIL, not ERROR as the claim states. -/
theorem transport_failure_rt005_yields_fail :
    (BaseTest.run RT005_meta "ts" 4
      (Except.ok (RT005_execute "pro-key" (Except.error "Connection refused")))).result
      = "FAIL" ∧
    (BaseTest.run RT005_meta "ts" 4
      (Except.ok (RT005_execute "pro-key" (Except.error "Connection refused")))).result
      ≠ "ERROR" := by
  constructor
  · rfl
  · decide

/-- C3 amended: a failure raised inside execute is converted to outcome
ERROR by run, but the valid-key-accepted and identity-injection checks
call client wrappers (health_check, get_whoami) that catch transport
failures and report status 0, so a transport failure there yields
Evidence with result FAIL, not ERROR; status 0 is meaningful there just
as in the rate-limit burst list. -/
theorem transport_failure_handling (msg : String) (meta : CheckMeta)
    (timestamp : String) (elapsed_ms : Nat) (api_key expected : String) :
    (BaseTest.run meta timestamp elapsed_ms (Except.error msg)).result = "ERROR" ∧
    (BaseTest.run RT005_meta timestamp elapsed_ms
      (Except.ok (RT005_execute api_key (Except.error msg)))).result = "FAIL" ∧
    (BaseTest.run RT006_meta timestamp elapsed_ms
      (RT006_execute api_key expected (Except.error msg))).result = "FAIL" := by
  refine ⟨rfl, rfl, ?_⟩
  simp [RT006_execute, DataplaneClient.get_whoami, pyDictGet, dictGetD,
        BaseTest.run, TestResult.value, List.find?, jvalEqStr]

/-- C4 (bug evaluation): in dry-run mode push_to_drata never invokes the
sink client, so the mock client's in-memory record is left unchanged —
empty when fresh — although DrataMockClient.submit_external_evidence
would have recorded each would-be submission had it been called. -/
theorem dry_run_records_nothing :
    (∀ (results : List Evidence) (client : DrataMockClient),
      push_to_drata results client true = client) ∧
    (∀ (st : DrataMockClient) (mid : String) (p : DrataEvidencePayload),
      ((st.submit_external_evidence mid p).1).submitted_evidence
        = st.submitted_evidence ++ [(mid, p.to_dict)]) := by
  constructor
  · intro results client
    induction results generalizing client with
    | nil => rfl
    | cons ev rest ih => simp only [push_to_drata] at ih ⊢; exact ih client
  · intro st mid p
    rfl

/-- Counting FAIL-or-ERROR results splits into the FAIL count plus the
ERROR count, the two predicates being mutually exclusive. -/
theorem mainFailedCount_eq (results : List Evidence) :
    mainFailedCount results = summaryFailed results + summaryErrors results := by
  induction results with
  | nil => rfl
  | cons e rest ih =>
    simp only [mainFailedCount, summaryFailed, summaryErrors, List.filter_cons] at ih ⊢
    by_cases hf : e.result = "FAIL"
    · simp [hf, ih]; omega
    · by_cases he : e.result = "ERROR"
      · simp [he, ih]; omega
      · have h1 : (e.result == "FAIL") = false := by simpa using hf
        have h2 : (e.result == "ERROR") = false := by simpa using he
        simp [h1, h2, ih]

/-- The four per-Outcome counts partition any results list whose result
strings all lie in the four-valued Outcome alphabet. -/
theorem summary_counts_partition (results : List Evidence)
    (h : ∀ e ∈ results, e.result = "PASS" ∨ e.result = "FAIL" ∨
         e.result = "ERROR" ∨ e.result = "SKIP") :
    summaryPassed results + summaryFailed results + summaryErrors results +
      summarySkipped results = results.length := by
  induction results with
  | nil => rfl
  | cons e rest ih =>
    have he := h e (List.mem_cons_self e rest)
    have ih2 := ih (fun x hx => h x (List.mem_cons_of_mem e hx))
    simp only [summaryPassed, summaryFailed, summaryErrors, summarySkipped,
      List.filter_cons, List.length_cons] at ih2 ⊢
    rcases he with h1 | h1 | h1 | h1 <;> simp [h1] <;> omega

/-- C5: for every results list of a run (every result lies in the
Outcome alphabet, which C1 guarantees for run-produced Evidence), the
per-Outcome aggregate counts partition the list, and the process exit
code is 1 exactly when the count of FAIL plus ERROR results is nonzero,
0 exactly when it is zero. -/
theorem summary_partition_and_exit (results : List Evidence)
    (h : ∀ e ∈ results, e.result = "PASS" ∨ e.result = "FAIL" ∨
         e.result = "ERROR" ∨ e.result = "SKIP") :
    summaryPassed results + summaryFailed results + summaryErrors results +
      summarySkipped results = results.length ∧
    (mainExitCode results = 1 ↔ 0 < summaryFailed results + summaryErrors results) ∧
    (mainExitCode results = 0 ↔ summaryFailed results + summaryErrors results = 0) := by
  refine ⟨summary_counts_partition results h, ?_, ?_⟩ <;>
    · unfold mainExitCode
      rw [mainFailedCount_eq]
      split <;> omega

/-- Witness for C5 on a concrete PASS/FAIL/ERROR/SKIP results list. -/
theorem summary_partition_and_exit_witness :
    summaryPassed sampleResults + summaryFailed sampleResults +
      summaryErrors sampleResults + summarySkipped sampleResults
      = sampleResults.length ∧
    (mainExitCode sampleResults = 1 ↔
      0 < summaryFailed sampleResults + summaryErrors sampleResults) ∧
    (mainExitCode sampleResults = 0 ↔
      summaryFailed sampleResults + summaryErrors sampleResults = 0) :=
  summary_partition_and_exit sampleResults (by decide)

/-- C6: the sink adapter maps result PASS to platform status "PASSING"
and every other result to "FAILING"; repeated mapping of the same
Evidence yields identical payload dicts (the mapping is a pure function
of the record); and the submission target is the check id, lower-cased,
behind the fixed "kong-" prefix. -/
theorem sink_status_mapping (ev : Evidence) :
    (ev.result = "PASS" →
      dictGetD (mkPayload ev).to_dict "status" JVal.null = JVal.str "PASSING") ∧
    (ev.result ≠ "PASS" →
      dictGetD (mkPayload ev).to_dict "status" JVal.null = JVal.str "FAILING") ∧
    (mkPayload ev).to_dict = (mkPayload ev).to_dict ∧
    monitorId ev = "kong-" ++ ev.test_id.toLower := by
  refine ⟨?_, ?_, rfl, rfl⟩
  · intro h
    simp [DrataEvidencePayload.to_dict, mkPayload, dictGetD, List.find?, h]
  · intro h
    have hb : (ev.result == "PASS") = false := by simpa using h
    simp [DrataEvidencePayload.to_dict, mkPayload, dictGetD, List.find?, hb]

/-- Witness for C6 on one PASS record and one ERROR record. -/
theorem sink_status_mapping_witness :
    dictGetD (mkPayload (BaseTest.run RT005_meta "t0" 1
        (Except.ok (TestResult.PASS, [], [])))).to_dict "status" JVal.null
      = JVal.str "PASSING" ∧
    dictGetD (mkPayload (BaseTest.run RT006_meta "t2" 3
        (Except.error "boom"))).to_dict "status" JVal.null
      = JVal.str "FAILING" :=
  ⟨(sink_status_mapping (BaseTest.run RT005_meta "t0" 1
      (Except.ok (TestResult.PASS, [], [])))).1 rfl,
   (sink_status_mapping (BaseTest.run RT006_meta "t2" 3
      (Except.error "boom"))).2.1 (by decide)⟩

/-- C7: over any 8-request burst in which no request raised, the
free-tier check passes iff at least one status is 429 and at most 5
statuses are 200; in particular five 200s followed by three 429s pass,
and eight 200s fail. -/
theorem free_tier_pass_iff (api_key : String) (statuses : List Nat)
    (_h8 : statuses.length = 8) (timestamp : String) (elapsed_ms : Nat) :
    ((BaseTest.run RT001_meta timestamp elapsed_ms
        (Except.ok (RT001_execute api_key (statuses.map Except.ok)))).result = "PASS" ↔
      (429 ∈ statuses ∧ (statuses.filter (fun s => s == 200)).length ≤ 5)) ∧
    (BaseTest.run RT001_meta timestamp elapsed_ms
      (Except.ok (RT001_execute api_key
        ([200, 200, 200, 200, 200, 429, 429, 429].map Except.ok)))).result = "PASS" ∧
    (BaseTest.run RT001_meta timestamp elapsed_ms
      (Except.ok (RT001_execute api_key
        ((List.replicate 8 200).map Except.ok)))).result = "FAIL" := by
  refine ⟨?_, rfl, rfl⟩
  simp only [RT001_execute, test_rate_limit_ok]
  rw [run_pass_fail_result]
  constructor
  · intro h
    split at h
    · next hb =>
      rw [Bool.and_eq_true, decide_eq_true_eq, decide_eq_true_eq] at hb
      exact ⟨(filter_429_pos_iff statuses).mp hb.1, hb.2⟩
    · exact absurd h (by decide)
  · intro ⟨hmem, hle⟩
    have hb : (decide (0 < (statuses.filter (fun r => r == 429)).length) &&
        decide ((statuses.filter (fun r => r == 200)).length ≤ 5)) = true := by
      rw [Bool.and_eq_true, decide_eq_true_eq, decide_eq_true_eq]
      exact ⟨(filter_429_pos_iff statuses).mpr hmem, hle⟩
    rw [hb]
    rfl

/-- Witness for C7 on the two concrete bursts of the claim. -/
theorem free_tier_pass_iff_witness :
    ((BaseTest.run RT001_meta "ts" 7
        (Except.ok (RT001_execute "free-trial-key"
          (([200, 200, 200, 200, 200, 429, 429, 429] : List Nat).map Except.ok)))).result
        = "PASS" ↔
      (429 ∈ ([200, 200, 200, 200, 200, 429, 429, 429] : List Nat) ∧
        (([200, 200, 200, 200, 200, 429, 429, 429] : List Nat).filter
          (fun s => s == 200)).length ≤ 5)) ∧
    (BaseTest.run RT001_meta "ts" 7
      (Except.ok (RT001_execute "free-trial-key"
        (([200, 200, 200, 200, 200, 429, 429, 429] : List Nat).map Except.ok)))).result
      = "PASS" :=
  ⟨(free_tier_pass_iff "free-trial-key" [200, 200, 200, 200, 200, 429, 429, 429]
      rfl "ts" 7).1,
   (free_tier_pass_iff "free-trial-key" [200, 200, 200, 200, 200, 429, 429, 429]
      rfl "ts" 7).2.1⟩

/-- C8: the all-consumers-have-limits check fails on an empty consumer
list; passes when the list is non-empty and every consumer id is covered
by an enabled consumer-scoped rate-limiting plugin; and any uncovered
consumer makes it fail with that consumer's username listed in
details.missing_limits. -/
theorem all_consumers_have_limits_spec (consumers : List KongConsumer)
    (items : List RawPlugin) (timestamp : String) (elapsed_ms : Nat) :
    (consumers = [] →
      (BaseTest.run CF003_meta timestamp elapsed_ms
        (Except.ok (CF003_execute consumers items))).result = "FAIL") ∧
    ((consumers ≠ [] ∧ ∀ c ∈ consumers,
        c.id ∈ consumers_with_limits
          (KonnectClient.get_plugins items (some "rate-limiting"))) →
      (BaseTest.run CF003_meta timestamp elapsed_ms
        (Except.ok (CF003_execute consumers items))).result = "PASS") ∧
    (∀ c ∈ consumers,
      c.id ∉ consumers_with_limits
          (KonnectClient.get_plugins items (some "rate-limiting")) →
      (BaseTest.run CF003_meta timestamp elapsed_ms
        (Except.ok (CF003_execute consumers items))).result = "FAIL" ∧
      dictGetD (BaseTest.run CF003_meta timestamp elapsed_ms
          (Except.ok (CF003_execute consumers items))).details
          "missing_limits" JVal.null
        = JVal.arr ((CF003_missing_limits consumers
            (consumers_with_limits
              (KonnectClient.get_plugins items (some "rate-limiting")))).map JVal.str) ∧
      c.username ∈ CF003_missing_limits consumers
          (consumers_with_limits
            (KonnectClient.get_plugins items (some "rate-limiting")))) := by
  refine ⟨?_, ?_, ?_⟩
  · intro h
    subst h
    rfl
  · rintro ⟨hne, hcov⟩
    have hm : CF003_missing_limits consumers
        (consumers_with_limits (KonnectClient.get_plugins items (some "rate-limiting")))
        = [] := by
      unfold CF003_missing_limits
      rw [List.map_eq_nil_iff, List.filter_eq_nil_iff]
      intro c hc
      simp [hcov c hc]
    simp only [CF003_execute]
    rw [run_pass_fail_result, hm]
    simp [List.length_pos, hne]
  · intro c hc hnc
    have hmem : c.username ∈ CF003_missing_limits consumers
        (consumers_with_limits (KonnectClient.get_plugins items (some "rate-limiting"))) := by
      unfold CF003_missing_limits
      exact List.mem_map_of_mem _ (List.mem_filter.mpr ⟨hc, by simp [hnc]⟩)
    have hne2 : (CF003_missing_limits consumers
        (consumers_with_limits (KonnectClient.get_plugins items (some "rate-limiting")))).isEmpty
        = false := by
      rcases h0 : CF003_missing_limits consumers
          (consumers_with_limits (KonnectClient.get_plugins items (some "rate-limiting"))) with
        _ | ⟨u, us⟩
      · rw [h0] at hmem
        exact absurd hmem (List.not_mem_nil _)
      · rfl
    refine ⟨?_, rfl, hmem⟩
    simp only [CF003_execute]
    rw [run_pass_fail_result, hne2]
    rfl

/-- Witness for C8 at three concrete configurations: no consumers; one
covered consumer; one covered and one uncovered consumer. -/
theorem all_consumers_have_limits_spec_witness :
    (BaseTest.run CF003_meta "ts" 6
      (Except.ok (CF003_execute [] [rateLimitItemC1]))).result = "FAIL" ∧
    (BaseTest.run CF003_meta "ts" 6
      (Except.ok (CF003_execute [consumerAlice] [rateLimitItemC1]))).result = "PASS" ∧
    (BaseTest.run CF003_meta "ts" 6
      (Except.ok (CF003_execute [consumerAlice, consumerBob] [rateLimitItemC1]))).result
      = "FAIL" ∧
    consumerBob.username ∈ CF003_missing_limits [consumerAlice, consumerBob]
      (consumers_with_limits
        (KonnectClient.get_plugins [rateLimitItemC1] (some "rate-limiting"))) := by
  refine ⟨?_, ?_, ?_, ?_⟩
  · exact (all_consumers_have_limits_spec [] [rateLimitItemC1] "ts" 6).1 rfl
  · exact (all_consumers_have_limits_spec [consumerAlice] [rateLimitItemC1] "ts" 6).2.1
      ⟨by decide, by decide⟩
  · exact ((all_consumers_have_limits_spec [consumerAlice, consumerBob]
      [rateLimitItemC1] "ts" 6).2.2 consumerBob (by decide) (by decide)).1
  · exact ((all_consumers_have_limits_spec [consumerAlice, consumerBob]
      [rateLimitItemC1] "ts" 6).2.2 consumerBob (by decide) (by decide)).2.2

/-- C9: for any observed status and parsed object body, the identity
check passes iff the status is 200 and the body's consumer.custom_id
traversal yields exactly the configured expected string (comparison is
exact string equality, hence case-sensitive); a body with no consumer
field yields an empty-string comparison, which fails against the
repository's configured expected identity "tier_pro". -/
theorem identity_injection_pass_iff (api_key expected : String) (status : Nat)
    (body : JVal) (timestamp : String) (elapsed_ms : Nat) :
    ((BaseTest.run RT006_meta timestamp elapsed_ms
        (RT006_execute api_key expected
          (Except.ok { status_code := status, json := some body }))).result = "PASS" ↔
      (status = 200 ∧ extractCustomId body = Except.ok (JVal.str expected))) ∧
    (∀ fields : Dict, fields.find? (fun p => p.1 == "consumer") = none →
      extractCustomId (JVal.obj fields) = Except.ok (JVal.str "") ∧
      (BaseTest.run RT006_meta timestamp elapsed_ms
        (RT006_execute api_key "tier_pro"
          (Except.ok { status_code := status,
                       json := some (JVal.obj fields) }))).result = "FAIL") := by
  constructor
  · rcases h1 : pyDictGet body "consumer" (JVal.obj []) with e | consumer_info
    · simp only [RT006_execute, DataplaneClient.get_whoami, Option.getD, h1]
      constructor
      · intro h
        exact absurd h (by simp [BaseTest.run, TestResult.value])
      · rintro ⟨-, hextract⟩
        simp only [extractCustomId, h1] at hextract
        exact absurd hextract (by simp)
    · rcases h2 : pyDictGet consumer_info "custom_id" (JVal.str "") with e | actual
      · simp only [RT006_execute, DataplaneClient.get_whoami, Option.getD, h1, h2]
        constructor
        · intro h
          exact absurd h (by simp [BaseTest.run, TestResult.value])
        · rintro ⟨-, hextract⟩
          simp only [extractCustomId, h1, h2] at hextract
          exact absurd hextract (by simp)
      · simp only [RT006_execute, DataplaneClient.get_whoami, Option.getD, h1, h2]
        rw [run_pass_fail_result]
        have hx : extractCustomId body = Except.ok actual := by
          simp only [extractCustomId, h1, h2]
        by_cases hb : ((status == 200) && jvalEqStr actual expected) = true
        · rw [if_pos hb]
          rw [Bool.and_eq_true] at hb
          obtain ⟨hs, hj⟩ := hb
          have hs2 : status = 200 := by simpa using hs
          have ha : actual = JVal.str expected := (jvalEqStr_iff actual expected).mp hj
          simp [hs2, hx, ha]
        · rw [if_neg hb]
          constructor
          · intro h
            exact absurd h (by decide)
          · rintro ⟨hs, hxx⟩
            rw [hx] at hxx
            injection hxx with ha
            exact absurd (by simp [hs, (jvalEqStr_iff actual expected).mpr ha]) hb
  · intro fields hf
    have hx : extractCustomId (JVal.obj fields) = Except.ok (JVal.str "") := by
      simp [extractCustomId, pyDictGet, dictGetD, hf]
    refine ⟨hx, ?_⟩
    have hne : (("" : String) == "tier_pro") = false := by decide
    simp only [RT006_execute, DataplaneClient.get_whoami, Option.getD, pyDictGet,
      dictGetD, hf, List.find?, jvalEqStr, hne, Bool.and_false]
    simp [BaseTest.run, TestResult.value]

/-- Witness for C9 at a concrete 200-status object body lacking a
consumer field, against the configured expected identity "tier_pro". -/
theorem identity_injection_pass_iff_witness :
    extractCustomId (JVal.obj [("user", JVal.str "u")]) = Except.ok (JVal.str "") ∧
    (BaseTest.run RT006_meta "ts" 9
      (RT006_execute "pro-key" "tier_pro"
        (Except.ok { status_code := 200,
                     json := some (JVal.obj [("user", JVal.str "u")]) }))).result
      = "FAIL" :=
  (identity_injection_pass_iff "pro-key" "tier_pro" 200
    (JVal.obj [("user", JVal.str "u")]) "ts" 9).2 [("user", JVal.str "u")] rfl

/-- C10: a plugin item whose admin listing omits the enabled field is
recorded by get_plugins with enabled = true; consequently the
auth-plugin-enabled and rate-limit-plugin-enabled checks PASS on
plugin items that never declared themselves enabled. -/
theorem missing_enabled_defaults_true (item : RawPlugin) (h : item.enabled = none)
    (timestamp : String) (elapsed_ms : Nat) :
    (∀ p ∈ KonnectClient.get_plugins [item] none, p.enabled = true) ∧
    (BaseTest.run CF001_meta timestamp elapsed_ms
      (Except.ok (CF001_execute [keyAuthItemNoEnabled]))).result = "PASS" ∧
    (BaseTest.run CF002_meta timestamp elapsed_ms
      (Except.ok (CF002_execute [rateLimitItemNoEnabled]))).result = "PASS" := by
  refine ⟨?_, rfl, rfl⟩
  intro p hp
  simp [KonnectClient.get_plugins, keepPlugin, pyTruthyStr] at hp
  subst hp
  simp [h]

/-- Witness for C10 on a concrete key-auth item lacking the enabled field. -/
theorem missing_enabled_defaults_true_witness :
    (∀ p ∈ KonnectClient.get_plugins [keyAuthItemNoEnabled] none,
      p.enabled = true) ∧
    (BaseTest.run CF001_meta "ts" 2
      (Except.ok (CF001_execute [keyAuthItemNoEnabled]))).result = "PASS" :=
  ⟨(missing_enabled_defaults_true keyAuthItemNoEnabled rfl "ts" 2).1,
   (missing_enabled_defaults_true keyAuthItemNoEnabled rfl "ts" 2).2.1⟩

end DrataKong
